import Mathlib

/-!
Verification of the kedro repository slice consisting of
`kedro/io/shared_memory_dataset.py` and `kedro/io/hdf_local.py`,
against its natural-language specification.

The shallow embedding below translates, directly from the Python source:

* `SharedMemoryDataset` — a proxy that delegates `load`/`save` to a
  `MemoryDataset` hosted in a multiprocessing `SyncManager`.  The remote
  container and the pickle module are modelled as explicit environments
  (`RemoteEnv`), exceptions as an explicit `PyErr` sum type, and the
  remote interaction of each call is returned as a trace of `RemoteCall`s
  so that "no remote call was attempted" is a provable statement.

* `HDFLocalDataSet` — a versioned local HDF dataset.  The filesystem is an
  explicit `FS` state (directories, HDF files as key/value stores), paths
  are segment lists with an explicit absolute flag (`PyPath`), and the
  pandas adapter calls are recorded as `AdapterCall` values.  The pieces
  of `kedro.io.core` that `hdf_local.py` uses (`_get_load_path`,
  `_get_save_path`, `_check_paths_consistency`, `Version`) are not in the
  repository slice and are modelled from the specification; their doc
  comments say so.
-/

deriving instance DecidableEq for Except

namespace KedroSpec

/-! ## Python-level infrastructure shared by both components -/

/-- A Python exception, as the code under verification can observe it:
`AttributeError`, kedro's `DatasetError`/`DataSetError`, or any other
exception (kind and message). -/
inductive PyErr where
  | attributeError (msg : String)
  | datasetError (msg : String)
  | otherError (kind : String) (msg : String)
deriving DecidableEq, Repr

/-- An opaque Python object handed to `SharedMemoryDataset.save`:
`className` is `str(data.__class__)` and `picklable` records whether
`pickle.dumps(data)` succeeds. -/
structure PyObject where
  className : String
  picklable : Bool
deriving DecidableEq, Repr

/-! ## SharedMemoryDataset (from `kedro/io/shared_memory_dataset.py`) -/

/-- The multiprocessing `SyncManager`, modelled as an allocator of fresh
remote `MemoryDataset` containers, identified by natural numbers. -/
structure SyncManager where
  nextId : Nat
deriving DecidableEq, Repr

/-- `manager.MemoryDataset()`: returns a handle to a freshly created remote
container together with the advanced manager state. -/
def SyncManager.MemoryDataset (m : SyncManager) : Nat × SyncManager :=
  (m.nextId, { nextId := m.nextId + 1 })

/-- The state of a `SharedMemoryDataset` instance: the `_EPHEMERAL` flag set
by `__init__` and the `shared_memory_dataset` attribute, which is either
`None` (unbound) or a handle to a remote container. -/
structure SharedMemoryDataset where
  EPHEMERAL : Bool
  shared_memory_dataset : Option Nat
deriving DecidableEq, Repr

/-- `SharedMemoryDataset.__init__`: sets `_EPHEMERAL = True`; if a manager is
given, binds `shared_memory_dataset` to a fresh `manager.MemoryDataset()`,
otherwise leaves it `None`. -/
def SharedMemoryDataset.init : Option SyncManager → SharedMemoryDataset × Option SyncManager
  | some m =>
      let r := m.MemoryDataset
      ({ EPHEMERAL := true, shared_memory_dataset := some r.1 }, some r.2)
  | none => ({ EPHEMERAL := true, shared_memory_dataset := none }, none)

/-- `SharedMemoryDataset.set_manager`: rebinds `shared_memory_dataset` to a
fresh `manager.MemoryDataset()` container. -/
def SharedMemoryDataset.set_manager (ds : SharedMemoryDataset) (m : SyncManager) :
    SharedMemoryDataset × SyncManager :=
  let r := m.MemoryDataset
  ({ ds with shared_memory_dataset := some r.1 }, r.2)

/-- The behaviour of the remote side: what exception (if any) the remote
container's `save` raises for a given artifact, and what its `load`
returns. -/
structure RemoteEnv where
  saveExc : Nat → PyObject → Option PyErr
  loadRes : Nat → Except PyErr PyObject

/-- One interaction with the remote container, recorded so that theorems can
state that no remote call was attempted. -/
inductive RemoteCall where
  | loadCall (container : Nat)
  | saveCall (container : Nat) (data : PyObject)
deriving DecidableEq, Repr

/-- The `AttributeError` produced by `None.load()` on an unbound proxy: the
spec's `UnboundError` for `load`. -/
def unboundLoadError : PyErr :=
  .attributeError "NoneType object has no attribute load"

/-- The `AttributeError` produced by `None.save(...)` on an unbound proxy:
the spec's `UnboundError` for `save`. -/
def unboundSaveError : PyErr :=
  .attributeError "NoneType object has no attribute save"

/-- `SharedMemoryDataset._load` (also exposed as `load`):
`return self.shared_memory_dataset.load()`.  On an unbound proxy the
attribute access on `None` raises `AttributeError` before any remote call;
otherwise the call delegates to the remote container.  The second component
is the trace of remote calls made. -/
def SharedMemoryDataset.load (env : RemoteEnv) (ds : SharedMemoryDataset) :
    Except PyErr PyObject × List RemoteCall :=
  match ds.shared_memory_dataset with
  | none => (.error unboundLoadError, [])
  | some cid => (env.loadRes cid, [.loadCall cid])

/-- The message of the `DatasetError` raised when the artifact is not
serialisable, verbatim from `_save`. -/
def nonSerialisableMsg (data : PyObject) : String :=
  data.className ++
    " cannot be serialised. ParallelRunner implicit memory datasets can only be used with serialisable data"

/-- `SharedMemoryDataset._save` (also exposed as `save`): try the remote
`save`; on an exception, run `pickle.dumps(data)` as a dry run; if that also
fails raise `DatasetError` naming `str(data.__class__)`, otherwise re-raise
the original exception.  On an unbound proxy the attribute access on `None`
raises `AttributeError` before any remote call — but it is raised inside
the `try`, so the handler catches it and runs the same dry run: the
`AttributeError` is re-raised for a picklable artifact, while a
non-picklable one raises the serialisation `DatasetError` instead. -/
def SharedMemoryDataset.save (env : RemoteEnv) (ds : SharedMemoryDataset)
    (data : PyObject) : Except PyErr Unit × List RemoteCall :=
  match ds.shared_memory_dataset with
  | none =>
    if data.picklable then (.error unboundSaveError, [])
    else (.error (.datasetError (nonSerialisableMsg data)), [])
  | some cid =>
    match env.saveExc cid data with
    | none => (.ok (), [.saveCall cid data])
    | some exc =>
      if data.picklable then
        (.error exc, [.saveCall cid data])
      else
        (.error (.datasetError (nonSerialisableMsg data)), [.saveCall cid data])

/-- `SharedMemoryDataset._describe`: `return {}`. -/
def SharedMemoryDataset.describe (_ : SharedMemoryDataset) : List (String × PyObject) :=
  []

/-- `SharedMemoryDataset.__getattr__`: raise `AttributeError` for
`"__setstate__"` (preventing recursion when deserialising), otherwise
forward `getattr(self.shared_memory_dataset, name)`.  `attrs` gives the
attribute table of each remote container. -/
def SharedMemoryDataset.getattrFwd (attrs : Nat → String → Option PyObject)
    (ds : SharedMemoryDataset) (name : String) : Except PyErr PyObject :=
  if name = "__setstate__" then
    .error (.attributeError "__setstate__")
  else
    match ds.shared_memory_dataset with
    | some cid =>
      match attrs cid name with
      | some v => .ok v
      | none => .error (.attributeError name)
    | none => .error (.attributeError name)

/-! ## HDFLocalDataSet (from `kedro/io/hdf_local.py`) -/

/-- A `pathlib.Path`: a list of segments together with whether the path is
absolute. -/
structure PyPath where
  isAbs : Bool
  segs : List String
deriving DecidableEq, Repr

/-- The absolute segment list denoted by a path: a relative path is
interpreted below the current working directory `cwd`. -/
def PyPath.abs (cwd : List String) (p : PyPath) : List String :=
  if p.isAbs then p.segs else cwd ++ p.segs

/-- `Path.absolute()`. -/
def PyPath.absolute (cwd : List String) (p : PyPath) : PyPath :=
  ⟨true, p.abs cwd⟩

/-- `Path.parent`. -/
def PyPath.parent (p : PyPath) : PyPath :=
  ⟨p.isAbs, p.segs.dropLast⟩

/-- The versioned location of a base path: `base/version/filename`, the
filename repeating the last segment of the base path. -/
def PyPath.vpath (p : PyPath) (v : String) : PyPath :=
  ⟨p.isAbs, p.segs ++ [v, p.segs.getLastD ""]⟩

/-- Modelled from the spec: `kedro.io.core.Version` (not part of this
repository slice) — a pair of an optional pinned load version and an
optional pinned save version, both timestamps ordered lexicographically. -/
structure Version where
  load : Option String
  save : Option String
deriving DecidableEq, Repr

/-- The errors of `hdf_local.py`: `DataSetError` as raised by version
resolution (`notFound`) and the consistency check (`consistency`), and
OS-level errors raised by `mkdir`/pandas (`ioError`, which is not a kedro
`DataSetError` but shares the carrier for simplicity — no code below
catches it). -/
inductive DataSetError where
  | notFound (msg : String)
  | consistency (msg : String)
  | ioError (msg : String)
deriving DecidableEq, Repr

/-- One invocation of the pandas format adapter (`read_hdf`/`to_hdf`):
the absolute path, the key, and the keyword options passed through. -/
structure AdapterCall where
  path : List String
  key : String
  kwargs : List (String × String)
deriving DecidableEq, Repr

/-- The contents of one HDF file: an association of slash-normalised keys to
stored artifacts. -/
abbrev Store := List (String × String)

/-- The local filesystem: directories and HDF files, both addressed by
absolute segment lists. -/
structure FS where
  dirs : List (List String)
  files : List (List String × Store)
deriving DecidableEq, Repr

/-- The root directory always exists; other directories as recorded. -/
def FS.hasDir (fs : FS) (d : List String) : Bool :=
  d.isEmpty || fs.dirs.contains d

/-- The HDF store at a path, empty when the file does not exist. -/
def FS.getStore (fs : FS) (p : List String) : Store :=
  match fs.files.find? (fun e => e.1 == p) with
  | some e => e.2
  | none => []

/-- `Path.is_file()`. -/
def FS.isFile (fs : FS) (p : List String) : Bool :=
  (fs.files.find? (fun e => e.1 == p)).isSome

/-- Update an association list at a key, appending when absent. -/
def storeSet (s : Store) (k v : String) : Store :=
  match s with
  | [] => [(k, v)]
  | e :: es => if e.1 = k then (k, v) :: es else e :: storeSet es k v

/-- Update the file table at a path, appending when absent. -/
def filesSet (l : List (List String × Store)) (p : List String) (s : Store) :
    List (List String × Store) :=
  match l with
  | [] => [(p, s)]
  | e :: es => if e.1 = p then (p, s) :: es else e :: filesSet es p s

/-- Python's `s.startswith("/")`: whether the first character is a
slash. -/
def startsWithSlash (k : String) : Bool :=
  match k.data with
  | [] => false
  | c :: _ => decide (c = Char.ofNat 47)

/-- The key under which pandas' HDF layer files a group: a leading slash is
added when absent. -/
def normKey (k : String) : String :=
  if startsWithSlash k then k else "/" ++ k

/-- The nonempty prefixes of a segment list, shortest first (the chain of
directories `mkdir(parents=True)` creates). -/
def segPrefixes (d : List String) : List (List String) :=
  (List.range d.length).map (fun i => d.take (i + 1))

/-- `Path.mkdir(parents=..., exist_ok=...)` on the absolute segment list
`d`: an existing target errors unless `exist_ok`; a missing target is
created, together with all missing ancestors when `parents`, and errors
when the parent is missing and `parents` is false. -/
def pyMkdir (parents exist_ok : Bool) (fs : FS) (d : List String) :
    Except DataSetError FS :=
  if fs.hasDir d then
    if exist_ok then .ok fs else .error (.ioError "FileExistsError")
  else if parents then
    .ok { fs with dirs := fs.dirs ++ (segPrefixes d).filter (fun q => !fs.hasDir q) }
  else if fs.hasDir d.dropLast then
    .ok { fs with dirs := fs.dirs ++ [d] }
  else .error (.ioError "FileNotFoundError")

/-- `DataFrame.to_hdf(path, key=key, **kwargs)` — the pandas format adapter
for writing: fails when the parent directory is missing, otherwise files
`data` under the slash-normalised key in the store at `path` (creating the
file when absent).  The adapter call made is returned alongside, making the
options passed through observable. -/
def to_hdf (fs : FS) (p : List String) (key data : String)
    (kwargs : List (String × String)) : Except DataSetError FS × AdapterCall :=
  (if fs.hasDir p.dropLast then
     .ok { fs with
           files := filesSet fs.files p (storeSet (fs.getStore p) (normKey key) data) }
   else .error (.ioError "FileNotFoundError"),
   ⟨p, key, kwargs⟩)

/-- `pd.read_hdf(path, key=key, **kwargs)` — the pandas format adapter for
reading: the artifact stored under the slash-normalised key at `path`.
The adapter call made is returned alongside. -/
def read_hdf (fs : FS) (p : List String) (key : String)
    (kwargs : List (String × String)) : Except DataSetError String × AdapterCall :=
  (match (fs.getStore p).find? (fun e => e.1 == normKey key) with
   | some e => .ok e.2
   | none => .error (.ioError "KeyError"),
   ⟨p, key, kwargs⟩)

/-- Python dict merge of `d` then `x`: the keys of `d` first, values
overridden by `x` where present, then the keys of `x` not in `d`. -/
def pyDictMerge (d x : List (String × String)) : List (String × String) :=
  d.map (fun e => (e.1, match x.find? (fun e2 => e2.1 == e.1) with
                        | some e2 => e2.2
                        | none => e.2))
    ++ x.filter (fun e2 => d.all (fun e => e.1 != e2.1))

/-- The state of an `HDFLocalDataSet` instance.  `cached_save_version`
models the lazily generated then cached save timestamp of the versioned
base class (modelled from the spec: the base class `kedro.io.core` is not
part of this repository slice). -/
structure HDFLocalDataSet where
  filepath : PyPath
  key : String
  load_args : List (String × String)
  save_args : List (String × String)
  version : Option Version
  cached_save_version : Option String
deriving DecidableEq, Repr

/-- `HDFLocalDataSet.__init__`: stores the filepath, key and version, and
merges the supplied load/save options over empty defaults (`None` meaning
no options).  As in the source, both merges use `default_load_args` as the
base — both defaults are empty, so this is inert. -/
def HDFLocalDataSet.init (filepath : PyPath) (key : String)
    (load_args save_args : Option (List (String × String)))
    (version : Option Version) : HDFLocalDataSet :=
  let default_load_args : List (String × String) := []
  let default_save_args : List (String × String) := []
  { filepath := filepath
    key := key
    load_args := match load_args with
                 | some l => pyDictMerge default_load_args l
                 | none => default_load_args
    save_args := match save_args with
                 | some s => pyDictMerge default_load_args s
                 | none => default_save_args
    version := version
    cached_save_version := none }

/-- Whether an explicit `load_version` is pinned. -/
def HDFLocalDataSet.pinnedLoad (ds : HDFLocalDataSet) : Bool :=
  match ds.version with
  | some v => v.load.isSome
  | none => false

/-- If `p` is `base ++ [v, fname]`, return `some v`. -/
def versionOf (base : List String) (fname : String) (p : List String) :
    Option String :=
  match p.drop base.length with
  | [v, f] => if p.take base.length = base ∧ f = fname then some v else none
  | _ => none

/-- The versions whose artifact file exists under `base` with filename
`fname`. -/
def FS.versionsUnder (fs : FS) (base : List String) (fname : String) :
    List String :=
  fs.files.filterMap (fun e => versionOf base fname e.1)

/-- Strict lexicographic comparison of character lists by code point. -/
def charListLt : List Char → List Char → Bool
  | [], [] => false
  | [], _ :: _ => true
  | _ :: _, [] => false
  | a :: as, b :: bs =>
    if a.toNat < b.toNat then true
    else if b.toNat < a.toNat then false
    else charListLt as bs

/-- Strict lexicographic order on strings, by code point. -/
def strLtB (a b : String) : Bool :=
  charListLt a.data b.data

/-- The lexicographically greatest element of a list of versions. -/
def latestVersion : List String → Option String
  | [] => none
  | v :: vs => some (vs.foldl (fun a b => if strLtB a b then b else a) v)

/-- Modelled from the spec: `AbstractVersionedDataSet._get_load_path`
(`kedro.io.core` is not part of this repository slice).  A pinned
`load_version` resolves to exactly that version's path, a `NotFoundError`
when absent; an unpinned one to the lexicographically greatest existing
version, a `NotFoundError` when none exist.  An unversioned dataset
resolves to the raw filepath. -/
def HDFLocalDataSet.get_load_path (ds : HDFLocalDataSet) (cwd : List String)
    (fs : FS) : Except DataSetError PyPath :=
  match ds.version with
  | none => .ok ds.filepath
  | some v =>
    match v.load with
    | some lv =>
      if fs.isFile ((ds.filepath.vpath lv).abs cwd) then .ok (ds.filepath.vpath lv)
      else .error (.notFound ("Did not find version " ++ lv))
    | none =>
      match latestVersion
          (fs.versionsUnder (ds.filepath.abs cwd) (ds.filepath.segs.getLastD "")) with
      | some mv => .ok (ds.filepath.vpath mv)
      | none => .error (.notFound "Did not find any versions")

/-- Modelled from the spec: `AbstractVersionedDataSet._get_save_path`
(`kedro.io.core` is not part of this repository slice).  A pinned
`save_version` gives that version's path; otherwise one timestamp (`now`)
is generated on first need and cached for the handle's lifetime.  An
unversioned dataset saves to the raw filepath. -/
def HDFLocalDataSet.get_save_path (ds : HDFLocalDataSet) (now : String) :
    PyPath × HDFLocalDataSet :=
  match ds.version with
  | none => (ds.filepath, ds)
  | some v =>
    match v.save with
    | some sv => (ds.filepath.vpath sv, ds)
    | none =>
      match ds.cached_save_version with
      | some cv => (ds.filepath.vpath cv, ds)
      | none => (ds.filepath.vpath now, { ds with cached_save_version := some now })

/-- The message of the consistency `DataSetError`. -/
def consistencyMsg : String :=
  "Save path did not match load path"

/-- Modelled from the spec:
`AbstractVersionedDataSet._check_paths_consistency` (`kedro.io.core` is
not part of this repository slice).  Skipped unconditionally when a
`load_version` is pinned; otherwise a `ConsistencyError` when the load
path differs from the save path. -/
def HDFLocalDataSet.check_paths_consistency (ds : HDFLocalDataSet)
    (load_path save_path : PyPath) : Except DataSetError Unit :=
  if ds.pinnedLoad then .ok ()
  else if load_path = save_path then .ok ()
  else .error (.consistency consistencyMsg)

/-- `HDFLocalDataSet._load`: resolve the load path, then
`pd.read_hdf(load_path, key=self._key, **self._load_args)`.  The adapter
call made, if resolution succeeded, is returned alongside. -/
def HDFLocalDataSet.load (ds : HDFLocalDataSet) (cwd : List String) (fs : FS) :
    Except DataSetError String × Option AdapterCall :=
  match ds.get_load_path cwd fs with
  | .error e => (.error e, none)
  | .ok p =>
    let r := read_hdf fs (p.abs cwd) ds.key ds.load_args
    (r.1, some r.2)

/-- The outcome of `HDFLocalDataSet._save`: the result (unit or the raised
error), the updated handle (a cached save version may have been
generated), the updated filesystem, and the `to_hdf` adapter call made, if
reached. -/
structure SaveOutcome where
  result : Except DataSetError Unit
  ds : HDFLocalDataSet
  fs : FS
  writeCall : Option AdapterCall
deriving DecidableEq, Repr

/-- `HDFLocalDataSet._save`, statement for statement from the source:
resolve the save path; `save_path.parent.mkdir(parents=True,
exist_ok=True)`; `data.to_hdf(str(save_path), key=self._key,
**self._save_args)`; resolve the load path; then
`self._check_paths_consistency(load_path.absolute(),
save_path.absolute())`.  `now` is the timestamp used if a save version
must be generated. -/
def HDFLocalDataSet.save (ds : HDFLocalDataSet) (cwd : List String)
    (now : String) (data : String) (fs : FS) : SaveOutcome :=
  let sp := (ds.get_save_path now).1
  let ds1 := (ds.get_save_path now).2
  match pyMkdir true true fs (sp.parent.abs cwd) with
  | .error e => ⟨.error e, ds1, fs, none⟩
  | .ok fs1 =>
    let w := to_hdf fs1 (sp.abs cwd) ds1.key data ds1.save_args
    match w.1 with
    | .error e => ⟨.error e, ds1, fs1, some w.2⟩
    | .ok fs2 =>
      match ds1.get_load_path cwd fs2 with
      | .error e => ⟨.error e, ds1, fs2, some w.2⟩
      | .ok lp =>
        match ds1.check_paths_consistency (lp.absolute cwd) (sp.absolute cwd) with
        | .error e => ⟨.error e, ds1, fs2, some w.2⟩
        | .ok _ => ⟨.ok (), ds1, fs2, some w.2⟩

/-- The tail of `HDFLocalDataSet._save` from the point where the artifact
has been written: resolve the load path on the post-write filesystem
`fs2`, then `self._check_paths_consistency(load_path.absolute(),
save_path.absolute())`.  This names the continuation of `save` so that
theorems can speak about the state after the `to_hdf` call. -/
def savePost (ds1 : HDFLocalDataSet) (cwd : List String) (sp : PyPath)
    (fs2 : FS) : SaveOutcome :=
  match ds1.get_load_path cwd fs2 with
  | .error e => ⟨.error e, ds1, fs2, some ⟨sp.abs cwd, ds1.key, ds1.save_args⟩⟩
  | .ok lp =>
    match ds1.check_paths_consistency (lp.absolute cwd) (sp.absolute cwd) with
    | .error e => ⟨.error e, ds1, fs2, some ⟨sp.abs cwd, ds1.key, ds1.save_args⟩⟩
    | .ok _ => ⟨.ok (), ds1, fs2, some ⟨sp.abs cwd, ds1.key, ds1.save_args⟩⟩

/-- `HDFLocalDataSet._exists`: resolve the load path with `DataSetError`
caught as `False`; otherwise `True` exactly when the path is a file and
the HDF store at it contains the key, a leading slash added when absent. -/
def HDFLocalDataSet.dsExists (ds : HDFLocalDataSet) (cwd : List String)
    (fs : FS) : Bool :=
  match ds.get_load_path cwd fs with
  | .error _ => false
  | .ok p =>
    if fs.isFile (p.abs cwd) then
      let key_with_slash := if startsWithSlash ds.key then ds.key else "/" ++ ds.key
      ((fs.getStore (p.abs cwd)).map Prod.fst).contains key_with_slash
    else false

/-! ## Concrete fixtures used by the witness theorems -/

/-- A remote environment whose container raises a `RuntimeError` on every
save. -/
def envBoom : RemoteEnv :=
  ⟨fun _ _ => some (.otherError "RuntimeError" "boom"),
   fun _ => .error (.otherError "RuntimeError" "boom")⟩

/-- An artifact of declared type `Socket` that cannot be pickled. -/
def sockObj : PyObject :=
  ⟨"<class 'socket.socket'>", false⟩

/-- A picklable artifact. -/
def intObj : PyObject :=
  ⟨"<class 'int'>", true⟩

/-- A proxy bound to remote container `0`. -/
def dsBound : SharedMemoryDataset :=
  ⟨true, some 0⟩

/-- An empty filesystem. -/
def fsEmpty : FS :=
  ⟨[], []⟩

/-- A versioned HDF dataset handle with no pinned versions and no
options. -/
def dsVer : HDFLocalDataSet :=
  HDFLocalDataSet.init ⟨false, ["data", "test.hdf"]⟩ "k" none none (some ⟨none, none⟩)

/-- A filesystem already holding a concurrently written newer version `T2`
of `dsVer`'s artifact below the working directory `home`. -/
def fsT2 : FS :=
  ⟨[["home"], ["home", "data"]],
   [(["home", "data", "test.hdf", "T2", "test.hdf"], [("/k", "old")])]⟩

/-! ## Claim theorems: SharedMemoryDataset -/

/-- C1.  An artifact whose remote save raises and whose pickle dry run also
fails makes `SharedMemoryDataset.save` raise a `DatasetError` whose message
starts with the artifact's declared type (`str(data.__class__)`) and then
explains that ParallelRunner shared-memory datasets need serialisable
data. -/
theorem shared_save_nonserialisable (env : RemoteEnv) (ds : SharedMemoryDataset)
    (cid : Nat) (data : PyObject) (exc : PyErr)
    (hbound : ds.shared_memory_dataset = some cid)
    (hremote : env.saveExc cid data = some exc)
    (hdry : data.picklable = false) :
    (SharedMemoryDataset.save env ds data).1 =
      Except.error (PyErr.datasetError (data.className ++
        " cannot be serialised. ParallelRunner implicit memory datasets can only be used with serialisable data")) := by
  simp [SharedMemoryDataset.save, hbound, hremote, hdry, nonSerialisableMsg]

/-- Witness for C1: saving the non-picklable `Socket` artifact through a
failing remote container yields the diagnostic `DatasetError`, whose
message names `socket.socket`. -/
theorem shared_save_nonserialisable_witness :
    (dsBound.shared_memory_dataset = some 0 ∧
      envBoom.saveExc 0 sockObj = some (PyErr.otherError "RuntimeError" "boom") ∧
      sockObj.picklable = false) ∧
    (SharedMemoryDataset.save envBoom dsBound sockObj).1 =
      Except.error (PyErr.datasetError (sockObj.className ++
        " cannot be serialised. ParallelRunner implicit memory datasets can only be used with serialisable data")) :=
  ⟨⟨rfl, rfl, rfl⟩,
   shared_save_nonserialisable envBoom dsBound 0 sockObj
     (PyErr.otherError "RuntimeError" "boom") rfl rfl rfl⟩

/-- C2.  An artifact whose remote save raises but which passes the pickle
dry run makes `SharedMemoryDataset.save` re-raise the original remote
exception unchanged. -/
theorem shared_save_reraises (env : RemoteEnv) (ds : SharedMemoryDataset)
    (cid : Nat) (data : PyObject) (exc : PyErr)
    (hbound : ds.shared_memory_dataset = some cid)
    (hremote : env.saveExc cid data = some exc)
    (hdry : data.picklable = true) :
    (SharedMemoryDataset.save env ds data).1 = Except.error exc := by
  simp [SharedMemoryDataset.save, hbound, hremote, hdry]

/-- Witness for C2: a picklable artifact failing a remote save surfaces the
original `RuntimeError`, not the serialisation `DatasetError`. -/
theorem shared_save_reraises_witness :
    (dsBound.shared_memory_dataset = some 0 ∧
      envBoom.saveExc 0 intObj = some (PyErr.otherError "RuntimeError" "boom") ∧
      intObj.picklable = true) ∧
    (SharedMemoryDataset.save envBoom dsBound intObj).1 =
      Except.error (PyErr.otherError "RuntimeError" "boom") :=
  ⟨⟨rfl, rfl, rfl⟩,
   shared_save_reraises envBoom dsBound 0 intObj
     (PyErr.otherError "RuntimeError" "boom") rfl rfl rfl⟩

/-- Counterexample to C3 as stated: saving the non-picklable `Socket`
artifact on a freshly constructed, never-attached proxy raises the
serialisation `DatasetError`, not the unbound `AttributeError` — the
`AttributeError` from `None.save` is caught by `_save`'s handler and the
failing dry run takes over. -/
theorem shared_unbound_guard_cex :
    (SharedMemoryDataset.save envBoom (SharedMemoryDataset.init none).1 sockObj).1 =
      Except.error (PyErr.datasetError (nonSerialisableMsg sockObj)) ∧
    (SharedMemoryDataset.save envBoom (SharedMemoryDataset.init none).1 sockObj).1 ≠
      Except.error unboundSaveError :=
  ⟨rfl, by decide⟩

/-- C3, amended.  On a proxy constructed without a manager and never
attached, `load()` raises the unbound error (the `AttributeError` from the
`None` attribute access — the spec's `UnboundError`) before any remote
call; `save()` also fails before any remote call and never silently
no-ops, but the caught `AttributeError` is filtered through the
serialisation dry run: a picklable artifact surfaces the unbound error, a
non-picklable one the serialisation `DatasetError`. -/
theorem shared_unbound_guard_amended (env : RemoteEnv) (data : PyObject) :
    SharedMemoryDataset.load env (SharedMemoryDataset.init none).1 =
      (Except.error unboundLoadError, []) ∧
    (SharedMemoryDataset.save env (SharedMemoryDataset.init none).1 data).2 = [] ∧
    (∃ e, (SharedMemoryDataset.save env (SharedMemoryDataset.init none).1 data).1 =
      Except.error e) ∧
    (data.picklable = true →
      SharedMemoryDataset.save env (SharedMemoryDataset.init none).1 data =
        (Except.error unboundSaveError, [])) ∧
    (data.picklable = false →
      SharedMemoryDataset.save env (SharedMemoryDataset.init none).1 data =
        (Except.error (PyErr.datasetError (nonSerialisableMsg data)), [])) := by
  refine ⟨rfl, ?_, ?_, ?_, ?_⟩
  · cases hp : data.picklable <;>
      simp [SharedMemoryDataset.save, SharedMemoryDataset.init, hp]
  · cases hp : data.picklable
    · exact ⟨PyErr.datasetError (nonSerialisableMsg data),
        by simp [SharedMemoryDataset.save, SharedMemoryDataset.init, hp]⟩
    · exact ⟨unboundSaveError,
        by simp [SharedMemoryDataset.save, SharedMemoryDataset.init, hp]⟩
  · intro hp
    simp [SharedMemoryDataset.save, SharedMemoryDataset.init, hp]
  · intro hp
    simp [SharedMemoryDataset.save, SharedMemoryDataset.init, hp]

/-- C6.  `describe()` returns the empty mapping on every proxy state. -/
theorem shared_describe_empty (ds : SharedMemoryDataset) :
    SharedMemoryDataset.describe ds = [] :=
  rfl

/-- C7.  `set_manager` requests a fresh container from the manager (the
manager's next identifier, advancing the manager) and rebinds the proxy to
it; a second call rebinds to yet another, distinct container; construction
with a manager performs the same binding. -/
theorem shared_set_manager_rebinds (ds : SharedMemoryDataset) (m : SyncManager) :
    (ds.set_manager m).1.shared_memory_dataset = some m.nextId ∧
    (ds.set_manager m).2.nextId = m.nextId + 1 ∧
    ((ds.set_manager m).1.set_manager (ds.set_manager m).2).1.shared_memory_dataset
        = some (m.nextId + 1) ∧
    some (m.nextId + 1) ≠ some m.nextId ∧
    (SharedMemoryDataset.init (some m)).1.shared_memory_dataset = some m.nextId := by
  refine ⟨rfl, rfl, rfl, ?_, rfl⟩
  simp

/-- C10.  Attribute lookup reaching `__getattr__` forwards to the bound
shared container, except that `"__setstate__"` always raises
`AttributeError` — even when the container itself carries that
attribute. -/
theorem shared_getattr_forwards (attrs : Nat → String → Option PyObject)
    (ds : SharedMemoryDataset) (cid : Nat) (name : String)
    (hbound : ds.shared_memory_dataset = some cid) :
    SharedMemoryDataset.getattrFwd attrs ds "__setstate__" =
      Except.error (PyErr.attributeError "__setstate__") ∧
    (name ≠ "__setstate__" →
      SharedMemoryDataset.getattrFwd attrs ds name =
        match attrs cid name with
        | some v => Except.ok v
        | none => Except.error (PyErr.attributeError name)) := by
  constructor
  · simp [SharedMemoryDataset.getattrFwd]
  · intro hne
    simp only [SharedMemoryDataset.getattrFwd, if_neg hne, hbound]

/-- Witness for C10: a container that defines both `load` and
`__setstate__` — lookup of `load` is forwarded, lookup of `__setstate__`
still raises. -/
theorem shared_getattr_forwards_witness :
    (dsBound.shared_memory_dataset = some 0) ∧
    (SharedMemoryDataset.getattrFwd
        (fun _ n => if n = "__setstate__" then some intObj
                    else if n = "load" then some sockObj else none)
        dsBound "__setstate__" =
      Except.error (PyErr.attributeError "__setstate__") ∧
    ("load" ≠ "__setstate__" →
      SharedMemoryDataset.getattrFwd
          (fun _ n => if n = "__setstate__" then some intObj
                      else if n = "load" then some sockObj else none)
          dsBound "load" =
        match (fun (_ : Nat) n => if n = "__setstate__" then some intObj
                    else if n = "load" then some sockObj else none) 0 "load" with
        | some v => Except.ok v
        | none => Except.error (PyErr.attributeError "load"))) :=
  ⟨rfl,
   shared_getattr_forwards
     (fun _ n => if n = "__setstate__" then some intObj
                 else if n = "load" then some sockObj else none)
     dsBound 0 "load" rfl⟩

/-! ## Helper lemmas for HDFLocalDataSet -/

theorem pyDictMerge_nil (x : List (String × String)) : pyDictMerge [] x = x := by
  simp [pyDictMerge]

theorem hasDir_iff (fs : FS) (d : List String) :
    fs.hasDir d = true ↔ d = [] ∨ d ∈ fs.dirs := by
  simp [FS.hasDir, List.isEmpty_iff, List.elem_iff]

theorem self_mem_segPrefixes (d : List String) (h : d ≠ []) : d ∈ segPrefixes d := by
  have hl : 0 < d.length := List.length_pos.mpr h
  refine List.mem_map.mpr ⟨d.length - 1, List.mem_range.mpr (Nat.sub_lt hl Nat.one_pos), ?_⟩
  have he : d.length - 1 + 1 = d.length := Nat.succ_pred_eq_of_pos hl
  rw [he, List.take_length]

theorem pyMkdir_ok (fs : FS) (d : List String) :
    ∃ fs', pyMkdir true true fs d = Except.ok fs' ∧
      fs'.files = fs.files ∧
      (∀ q, fs.hasDir q = true → fs'.hasDir q = true) ∧
      fs'.hasDir d = true ∧
      (fs.hasDir d = false → ∀ q ∈ segPrefixes d, fs'.hasDir q = true) := by
  by_cases h : fs.hasDir d = true
  · exact ⟨fs, by simp [pyMkdir, h], rfl, fun _ hq => hq, h,
      fun hf => absurd h (by simp [hf])⟩
  · have h' : fs.hasDir d = false := by simpa using h
    refine ⟨{ fs with dirs := fs.dirs ++ (segPrefixes d).filter (fun q => !fs.hasDir q) },
      by simp [pyMkdir, h'], rfl, ?_, ?_, ?_⟩
    · intro q hq
      rcases (hasDir_iff fs q).mp hq with hnil | hmem
      · simp [FS.hasDir, hnil]
      · exact (hasDir_iff _ q).mpr (Or.inr (List.mem_append.mpr (Or.inl hmem)))
    · have hd : d ≠ [] := by
        intro hnil
        rw [hnil] at h'
        simp [FS.hasDir] at h'
      refine (hasDir_iff _ d).mpr (Or.inr (List.mem_append.mpr (Or.inr ?_)))
      exact List.mem_filter.mpr ⟨self_mem_segPrefixes d hd, by simp [h']⟩
    · intro _ q hq
      by_cases hfq : fs.hasDir q = true
      · rcases (hasDir_iff fs q).mp hfq with hnil | hmem
        · simp [FS.hasDir, hnil]
        · exact (hasDir_iff _ q).mpr (Or.inr (List.mem_append.mpr (Or.inl hmem)))
      · have hfq' : fs.hasDir q = false := by simpa using hfq
        refine (hasDir_iff _ q).mpr (Or.inr (List.mem_append.mpr (Or.inr ?_)))
        exact List.mem_filter.mpr ⟨hq, by simp [hfq']⟩

theorem filesSet_find_self (l : List (List String × Store)) (p : List String) (s : Store) :
    (filesSet l p s).find? (fun e => e.1 == p) = some (p, s) := by
  induction l with
  | nil => simp [filesSet]
  | cons e es ih =>
    by_cases h : e.1 = p
    · simp [filesSet, h]
    · rw [filesSet, if_neg h, List.find?_cons_of_neg _ (by simp [h]), ih]

theorem filesSet_mem_self (l : List (List String × Store)) (p : List String) (s : Store) :
    (p, s) ∈ filesSet l p s := by
  induction l with
  | nil => simp [filesSet]
  | cons e es ih =>
    by_cases h : e.1 = p
    · simp [filesSet, h]
    · rw [filesSet, if_neg h]
      exact List.mem_cons_of_mem e ih

theorem isFile_filesSet (dirs : List (List String)) (l : List (List String × Store))
    (p : List String) (s : Store) :
    FS.isFile ⟨dirs, filesSet l p s⟩ p = true := by
  simp [FS.isFile, filesSet_find_self]

theorem getStore_filesSet (dirs : List (List String)) (l : List (List String × Store))
    (p : List String) (s : Store) :
    FS.getStore ⟨dirs, filesSet l p s⟩ p = s := by
  simp [FS.getStore, filesSet_find_self]

theorem storeSet_find_self (s : Store) (k v : String) :
    (storeSet s k v).find? (fun e => e.1 == k) = some (k, v) := by
  induction s with
  | nil => simp [storeSet]
  | cons e es ih =>
    by_cases h : e.1 = k
    · simp [storeSet, h]
    · rw [storeSet, if_neg h, List.find?_cons_of_neg _ (by simp [h]), ih]

theorem versionOf_append (base : List String) (fname v : String) :
    versionOf base fname (base ++ [v, fname]) = some v := by
  simp [versionOf, List.drop_left, List.take_left]

theorem latestVersion_of_mem (l : List String) (v : String) (h : v ∈ l) :
    ∃ mv, latestVersion l = some mv := by
  cases l with
  | nil => cases h
  | cons a as => exact ⟨_, rfl⟩

theorem vpath_abs (p : PyPath) (cwd : List String) (v : String) :
    (p.vpath v).abs cwd = p.abs cwd ++ [v, p.segs.getLastD ""] := by
  rcases p with ⟨b, segs⟩
  cases b <;> simp [PyPath.vpath, PyPath.abs]

theorem vpath_segs_ne (p : PyPath) (v : String) : (p.vpath v).segs ≠ [] := by
  simp [PyPath.vpath]

theorem abs_dropLast (p : PyPath) (cwd : List String) (h : p.segs ≠ []) :
    (p.abs cwd).dropLast = p.parent.abs cwd := by
  rcases p with ⟨b, segs⟩
  cases b
  · simp only [PyPath.abs, PyPath.parent]
    simpa using List.dropLast_append_of_ne_nil cwd (by simpa using h)
  · simp [PyPath.abs, PyPath.parent]

theorem get_save_path_fields (ds : HDFLocalDataSet) (now : String) :
    ((ds.get_save_path now).2).filepath = ds.filepath ∧
    ((ds.get_save_path now).2).key = ds.key ∧
    ((ds.get_save_path now).2).load_args = ds.load_args ∧
    ((ds.get_save_path now).2).save_args = ds.save_args ∧
    ((ds.get_save_path now).2).version = ds.version := by
  rcases hv : ds.version with _ | v
  · simp [HDFLocalDataSet.get_save_path, hv]
  · rcases hs : v.save with _ | sv
    · rcases hc : ds.cached_save_version with _ | cv
      · simp [HDFLocalDataSet.get_save_path, hv, hs, hc]
      · simp [HDFLocalDataSet.get_save_path, hv, hs, hc]
    · simp [HDFLocalDataSet.get_save_path, hv, hs]

theorem get_save_path_shape (ds : HDFLocalDataSet) (now : String) :
    (ds.version = none ∧ (ds.get_save_path now).1 = ds.filepath) ∨
    (∃ w, (ds.get_save_path now).1 = ds.filepath.vpath w) := by
  rcases hv : ds.version with _ | v
  · exact Or.inl ⟨rfl, by simp [HDFLocalDataSet.get_save_path, hv]⟩
  · refine Or.inr ?_
    rcases hs : v.save with _ | sv
    · rcases hc : ds.cached_save_version with _ | cv
      · exact ⟨now, by simp [HDFLocalDataSet.get_save_path, hv, hs, hc]⟩
      · exact ⟨cv, by simp [HDFLocalDataSet.get_save_path, hv, hs, hc]⟩
    · exact ⟨sv, by simp [HDFLocalDataSet.get_save_path, hv, hs]⟩

theorem get_save_path_segs_ne (ds : HDFLocalDataSet) (now : String)
    (h : ds.filepath.segs ≠ []) : ((ds.get_save_path now).1).segs ≠ [] := by
  rcases get_save_path_shape ds now with ⟨_, hp⟩ | ⟨w, hp⟩
  · rw [hp]; exact h
  · rw [hp]; exact vpath_segs_ne _ _

theorem to_hdf_fst_ok (fs : FS) (p : List String) (k data : String)
    (args : List (String × String)) (h : fs.hasDir p.dropLast = true) :
    (to_hdf fs p k data args).1 =
      Except.ok ⟨fs.dirs, filesSet fs.files p (storeSet (fs.getStore p) (normKey k) data)⟩ := by
  simp [to_hdf, h]

theorem to_hdf_snd (fs : FS) (p : List String) (k data : String)
    (args : List (String × String)) :
    (to_hdf fs p k data args).2 = ⟨p, k, args⟩ :=
  rfl

theorem get_load_path_error_shape (ds : HDFLocalDataSet) (cwd : List String)
    (fs : FS) (e : DataSetError) (h : ds.get_load_path cwd fs = Except.error e) :
    ∃ m, e = DataSetError.notFound m := by
  unfold HDFLocalDataSet.get_load_path at h
  rcases hv : ds.version with _ | v
  · simp only [hv] at h
    cases h
  · simp only [hv] at h
    rcases hl : v.load with _ | lv
    · simp only [hl] at h
      rcases hm : latestVersion
          (fs.versionsUnder (ds.filepath.abs cwd) (ds.filepath.segs.getLastD "")) with _ | mv
      · simp only [hm] at h
        injection h with h'
        exact ⟨_, h'.symm⟩
      · simp only [hm] at h
        cases h
    · simp only [hl] at h
      by_cases hf : fs.isFile ((ds.filepath.vpath lv).abs cwd) = true
      · rw [if_pos hf] at h; cases h
      · rw [if_neg hf] at h
        injection h with h'
        exact ⟨_, h'.symm⟩

theorem check_error_shape (ds : HDFLocalDataSet) (lp sp : PyPath) (e : DataSetError)
    (h : ds.check_paths_consistency lp sp = Except.error e) :
    e = DataSetError.consistency consistencyMsg := by
  unfold HDFLocalDataSet.check_paths_consistency at h
  by_cases hp : ds.pinnedLoad = true
  · rw [if_pos hp] at h; cases h
  · rw [if_neg hp] at h
    by_cases he : lp = sp
    · rw [if_pos he] at h; cases h
    · rw [if_neg he] at h
      injection h with h'
      exact h'.symm

theorem check_unpinned (ds : HDFLocalDataSet) (lp sp : PyPath)
    (h : ds.pinnedLoad = false) :
    (lp = sp → ds.check_paths_consistency lp sp = Except.ok ()) ∧
    (lp ≠ sp → ds.check_paths_consistency lp sp =
      Except.error (DataSetError.consistency consistencyMsg)) := by
  constructor
  · intro he
    simp [HDFLocalDataSet.check_paths_consistency, h, he]
  · intro hne
    simp [HDFLocalDataSet.check_paths_consistency, h, hne]

/-- The body of `_save` after its mkdir and `to_hdf` steps have been
discharged: the write always happens (into `fs2`, built over `fs1` from
the always-succeeding recursive mkdir) and the outcome is decided by load
path resolution on the post-write filesystem followed by the consistency
check on absolute paths. -/
theorem save_unfold (ds : HDFLocalDataSet) (cwd : List String) (now data : String)
    (fs : FS) (hfp : ds.filepath.segs ≠ []) :
    ∃ fs1 : FS,
      pyMkdir true true fs ((((ds.get_save_path now).1).parent).abs cwd) = Except.ok fs1 ∧
      fs1.files = fs.files ∧
      (∀ q, fs.hasDir q = true → fs1.hasDir q = true) ∧
      fs1.hasDir ((((ds.get_save_path now).1).parent).abs cwd) = true ∧
      (fs.hasDir ((((ds.get_save_path now).1).parent).abs cwd) = false →
        ∀ q ∈ segPrefixes ((((ds.get_save_path now).1).parent).abs cwd),
          fs1.hasDir q = true) ∧
      ds.save cwd now data fs =
        savePost ((ds.get_save_path now).2) cwd ((ds.get_save_path now).1)
          ⟨fs1.dirs, filesSet fs1.files (((ds.get_save_path now).1).abs cwd)
            (storeSet (fs1.getStore (((ds.get_save_path now).1).abs cwd))
              (normKey ((ds.get_save_path now).2).key) data)⟩ := by
  obtain ⟨fs1, hmk, hfiles, hmono, htgt, hmade⟩ :=
    pyMkdir_ok fs ((((ds.get_save_path now).1).parent).abs cwd)
  have hseg : (((ds.get_save_path now).1)).segs ≠ [] := get_save_path_segs_ne ds now hfp
  have hdrop : ((((ds.get_save_path now).1)).abs cwd).dropLast =
      (((ds.get_save_path now).1).parent).abs cwd := abs_dropLast _ cwd hseg
  have hw := to_hdf_fst_ok fs1 (((ds.get_save_path now).1).abs cwd)
    ((ds.get_save_path now).2).key data ((ds.get_save_path now).2).save_args
    (by rw [hdrop]; exact htgt)
  refine ⟨fs1, hmk, hfiles, hmono, htgt, hmade, ?_⟩
  simp only [HDFLocalDataSet.save]
  rw [hmk]
  simp only [hw, to_hdf_snd, savePost]

theorem savePost_fs (ds1 : HDFLocalDataSet) (cwd : List String) (sp : PyPath)
    (fs2 : FS) : (savePost ds1 cwd sp fs2).fs = fs2 := by
  unfold savePost
  rcases h : ds1.get_load_path cwd fs2 with e | lp
  · simp only [h]
  · simp only [h]
    rcases h2 : ds1.check_paths_consistency (lp.absolute cwd) (sp.absolute cwd) with e2 | u
    · simp only [h2]
    · simp only [h2]

theorem savePost_writeCall (ds1 : HDFLocalDataSet) (cwd : List String) (sp : PyPath)
    (fs2 : FS) :
    (savePost ds1 cwd sp fs2).writeCall = some ⟨sp.abs cwd, ds1.key, ds1.save_args⟩ := by
  unfold savePost
  rcases h : ds1.get_load_path cwd fs2 with e | lp
  · simp only [h]
  · simp only [h]
    rcases h2 : ds1.check_paths_consistency (lp.absolute cwd) (sp.absolute cwd) with e2 | u
    · simp only [h2]
    · simp only [h2]

theorem savePost_result_ok (ds1 : HDFLocalDataSet) (cwd : List String) (sp : PyPath)
    (fs2 : FS) (lp : PyPath)
    (hres : ds1.get_load_path cwd fs2 = Except.ok lp)
    (hc : ds1.check_paths_consistency (lp.absolute cwd) (sp.absolute cwd) = Except.ok ()) :
    (savePost ds1 cwd sp fs2).result = Except.ok () := by
  unfold savePost
  simp only [hres, hc]

theorem savePost_result_err (ds1 : HDFLocalDataSet) (cwd : List String) (sp : PyPath)
    (fs2 : FS) (lp : PyPath) (e : DataSetError)
    (hres : ds1.get_load_path cwd fs2 = Except.ok lp)
    (hc : ds1.check_paths_consistency (lp.absolute cwd) (sp.absolute cwd) = Except.error e) :
    (savePost ds1 cwd sp fs2).result = Except.error e := by
  unfold savePost
  simp only [hres, hc]

theorem savePost_result_not_io (ds1 : HDFLocalDataSet) (cwd : List String) (sp : PyPath)
    (fs2 : FS) (m : String) :
    (savePost ds1 cwd sp fs2).result ≠ Except.error (DataSetError.ioError m) := by
  unfold savePost
  rcases hg : ds1.get_load_path cwd fs2 with e | lp
  · simp only [hg]
    obtain ⟨m2, hm2⟩ := get_load_path_error_shape ds1 cwd fs2 e hg
    subst hm2
    simp
  · simp only [hg]
    rcases hc : ds1.check_paths_consistency (lp.absolute cwd) (sp.absolute cwd) with e2 | u
    · simp only [hc]
      have h2 := check_error_shape ds1 _ _ _ hc
      subst h2
      simp
    · simp only [hc]
      simp

theorem read_hdf_snd (fs : FS) (p : List String) (k : String)
    (args : List (String × String)) :
    (read_hdf fs p k args).2 = ⟨p, k, args⟩ :=
  rfl

/-! ## Claim theorems: HDFLocalDataSet -/

/-- C4.  On every save with no pinned load version, the artifact is written
(the save path is a file in the resulting filesystem), the default load
path is resolved on that post-write filesystem, and the saved outcome is
exactly the comparison of that load path with the save path, both taken
absolute: equality yields success, a mismatch yields the consistency
`DataSetError`. -/
theorem hdf_save_consistency (ds : HDFLocalDataSet) (cwd : List String)
    (now data : String) (fs : FS)
    (hfp : ds.filepath.segs ≠ []) (hpin : ds.pinnedLoad = false) :
    FS.isFile (ds.save cwd now data fs).fs (((ds.get_save_path now).1).abs cwd) = true ∧
    ∃ lp, ((ds.get_save_path now).2).get_load_path cwd (ds.save cwd now data fs).fs =
        Except.ok lp ∧
      (lp.absolute cwd = ((ds.get_save_path now).1).absolute cwd →
        (ds.save cwd now data fs).result = Except.ok ()) ∧
      (lp.absolute cwd ≠ ((ds.get_save_path now).1).absolute cwd →
        (ds.save cwd now data fs).result =
          Except.error (DataSetError.consistency consistencyMsg)) := by
  obtain ⟨fs1, hmk, hfiles, hmono, htgt, hmade, hsave⟩ := save_unfold ds cwd now data fs hfp
  have hfld := get_save_path_fields ds now
  have hfp1 : ((ds.get_save_path now).2).filepath = ds.filepath := hfld.1
  have hver1 : ((ds.get_save_path now).2).version = ds.version := hfld.2.2.2.2
  have hpin1 : ((ds.get_save_path now).2).pinnedLoad = false := by
    unfold HDFLocalDataSet.pinnedLoad at hpin ⊢
    rw [hver1]
    exact hpin
  set P := (((ds.get_save_path now).1).abs cwd) with hP
  set S := storeSet (fs1.getStore P) (normKey ((ds.get_save_path now).2).key) data with hS
  set fs2 : FS := ⟨fs1.dirs, filesSet fs1.files P S⟩ with hfs2
  have hglp : ∃ lp, ((ds.get_save_path now).2).get_load_path cwd fs2 = Except.ok lp := by
    rcases hv : ds.version with _ | v
    · exact ⟨((ds.get_save_path now).2).filepath,
        by simp [HDFLocalDataSet.get_load_path, hver1, hv]⟩
    · have hl : v.load = none := by
        unfold HDFLocalDataSet.pinnedLoad at hpin
        simp only [hv] at hpin
        rcases hvl : v.load with _ | x
        · rfl
        · rw [hvl] at hpin
          simp at hpin
      rcases get_save_path_shape ds now with ⟨hnone, _⟩ | ⟨w, hspv⟩
      · rw [hv] at hnone
        cases hnone
      · have hPw : P = ds.filepath.abs cwd ++ [w, ds.filepath.segs.getLastD ""] := by
          rw [hP, hspv, vpath_abs]
        have hmem : (P, S) ∈ fs2.files := filesSet_mem_self _ _ _
        have hvof : versionOf (ds.filepath.abs cwd) (ds.filepath.segs.getLastD "") P
            = some w := by
          rw [hPw]
          exact versionOf_append _ _ _
        have hwmem : w ∈ fs2.versionsUnder (ds.filepath.abs cwd)
            (ds.filepath.segs.getLastD "") :=
          List.mem_filterMap.mpr ⟨(P, S), hmem, hvof⟩
        obtain ⟨mv, hmv⟩ := latestVersion_of_mem _ w hwmem
        refine ⟨((ds.get_save_path now).2).filepath.vpath mv, ?_⟩
        unfold HDFLocalDataSet.get_load_path
        simp only [hver1, hv, hl, hfp1]
        rw [hmv]
  obtain ⟨lp, hlp⟩ := hglp
  constructor
  · rw [hsave, savePost_fs, hfs2]
    exact isFile_filesSet _ _ _ _
  · refine ⟨lp, ?_, ?_, ?_⟩
    · rw [hsave, savePost_fs]
      exact hlp
    · intro heq
      have hc := (check_unpinned ((ds.get_save_path now).2) (lp.absolute cwd)
        (((ds.get_save_path now).1).absolute cwd) hpin1).1 heq
      rw [hsave]
      exact savePost_result_ok _ _ _ _ lp hlp hc
    · intro hne
      have hc := (check_unpinned ((ds.get_save_path now).2) (lp.absolute cwd)
        (((ds.get_save_path now).1).absolute cwd) hpin1).2 hne
      rw [hsave]
      exact savePost_result_err _ _ _ _ lp _ hlp hc

/-- Witness for C4: saving version `T1` of `dsVer` while version `T2`
already exists makes the post-save default load path resolve to `T2`,
which differs from the save path — and the save indeed ends in the
consistency error. -/
theorem hdf_save_consistency_witness :
    (dsVer.filepath.segs ≠ [] ∧ dsVer.pinnedLoad = false) ∧
    (FS.isFile (dsVer.save ["home"] "T1" "payload" fsT2).fs
        (((dsVer.get_save_path "T1").1).abs ["home"]) = true ∧
      ∃ lp, ((dsVer.get_save_path "T1").2).get_load_path ["home"]
          (dsVer.save ["home"] "T1" "payload" fsT2).fs = Except.ok lp ∧
        (lp.absolute ["home"] = ((dsVer.get_save_path "T1").1).absolute ["home"] →
          (dsVer.save ["home"] "T1" "payload" fsT2).result = Except.ok ()) ∧
        (lp.absolute ["home"] ≠ ((dsVer.get_save_path "T1").1).absolute ["home"] →
          (dsVer.save ["home"] "T1" "payload" fsT2).result =
            Except.error (DataSetError.consistency consistencyMsg))) ∧
    (dsVer.save ["home"] "T1" "payload" fsT2).result =
      Except.error (DataSetError.consistency consistencyMsg) :=
  ⟨⟨by decide, by decide⟩,
   hdf_save_consistency dsVer ["home"] "T1" "payload" fsT2 (by decide) (by decide),
   by decide⟩

/-- C5.  A save path whose parent directories are missing is not an error:
`_save` runs `mkdir(parents=True, exist_ok=True)` before writing, which
always succeeds, keeps every pre-existing directory, creates the whole
missing chain of parents on demand, and the artifact is then written; no
OS error is ever the outcome of a save. -/
theorem hdf_save_creates_dirs (ds : HDFLocalDataSet) (cwd : List String)
    (now data : String) (fs : FS) (hfp : ds.filepath.segs ≠ []) :
    ∃ fs1, pyMkdir true true fs ((((ds.get_save_path now).1).parent).abs cwd)
        = Except.ok fs1 ∧
      (∀ q, fs.hasDir q = true → fs1.hasDir q = true) ∧
      fs1.hasDir ((((ds.get_save_path now).1).parent).abs cwd) = true ∧
      (fs.hasDir ((((ds.get_save_path now).1).parent).abs cwd) = false →
        ∀ q ∈ segPrefixes ((((ds.get_save_path now).1).parent).abs cwd),
          fs1.hasDir q = true) ∧
      FS.isFile (ds.save cwd now data fs).fs (((ds.get_save_path now).1).abs cwd) = true ∧
      ∀ m, (ds.save cwd now data fs).result ≠ Except.error (DataSetError.ioError m) := by
  obtain ⟨fs1, hmk, hfiles, hmono, htgt, hmade, hsave⟩ := save_unfold ds cwd now data fs hfp
  refine ⟨fs1, hmk, hmono, htgt, hmade, ?_, ?_⟩
  · rw [hsave, savePost_fs]
    exact isFile_filesSet _ _ _ _
  · intro m
    rw [hsave]
    exact savePost_result_not_io _ _ _ _ m

/-- Witness for C5: saving `dsVer` into the empty filesystem creates the
whole directory chain and succeeds. -/
theorem hdf_save_creates_dirs_witness :
    (dsVer.filepath.segs ≠ []) ∧
    (∃ fs1, pyMkdir true true fsEmpty ((((dsVer.get_save_path "T1").1).parent).abs ["home"])
        = Except.ok fs1 ∧
      (∀ q, fsEmpty.hasDir q = true → fs1.hasDir q = true) ∧
      fs1.hasDir ((((dsVer.get_save_path "T1").1).parent).abs ["home"]) = true ∧
      (fsEmpty.hasDir ((((dsVer.get_save_path "T1").1).parent).abs ["home"]) = false →
        ∀ q ∈ segPrefixes ((((dsVer.get_save_path "T1").1).parent).abs ["home"]),
          fs1.hasDir q = true) ∧
      FS.isFile (dsVer.save ["home"] "T1" "payload" fsEmpty).fs
        (((dsVer.get_save_path "T1").1).abs ["home"]) = true ∧
      ∀ m, (dsVer.save ["home"] "T1" "payload" fsEmpty).result
        ≠ Except.error (DataSetError.ioError m)) ∧
    (dsVer.save ["home"] "T1" "payload" fsEmpty).result = Except.ok () :=
  ⟨by decide,
   hdf_save_creates_dirs dsVer ["home"] "T1" "payload" fsEmpty (by decide),
   by decide⟩

/-- C8.  Options supplied at construction are stored unchanged (the merge
with the empty defaults is the identity) and passed through verbatim as
the keyword arguments of the pandas adapter calls on load and save; a
`None` options mapping means no options at all. -/
theorem hdf_args_passthrough (fp : PyPath) (key : String)
    (la sa : List (String × String)) (ver : Option Version) (cwd : List String)
    (now data : String) (fs : FS) (lp : PyPath)
    (hfp : fp.segs ≠ [])
    (hres : (HDFLocalDataSet.init fp key (some la) (some sa) ver).get_load_path cwd fs
      = Except.ok lp) :
    (HDFLocalDataSet.init fp key (some la) (some sa) ver).load_args = la ∧
    (HDFLocalDataSet.init fp key (some la) (some sa) ver).save_args = sa ∧
    (HDFLocalDataSet.init fp key none none ver).load_args = [] ∧
    (HDFLocalDataSet.init fp key none none ver).save_args = [] ∧
    ((HDFLocalDataSet.init fp key (some la) (some sa) ver).load cwd fs).2 =
      some ⟨lp.abs cwd, key, la⟩ ∧
    ((HDFLocalDataSet.init fp key (some la) (some sa) ver).save cwd now data fs).writeCall =
      some ⟨(((HDFLocalDataSet.init fp key (some la) (some sa) ver).get_save_path now).1).abs cwd,
            key, sa⟩ := by
  have hla : (HDFLocalDataSet.init fp key (some la) (some sa) ver).load_args = la := by
    simp [HDFLocalDataSet.init, pyDictMerge_nil]
  have hsa : (HDFLocalDataSet.init fp key (some la) (some sa) ver).save_args = sa := by
    simp [HDFLocalDataSet.init, pyDictMerge_nil]
  refine ⟨hla, hsa, rfl, rfl, ?_, ?_⟩
  · unfold HDFLocalDataSet.load
    simp only [hres, read_hdf_snd]
    rw [hla]
    rfl
  · obtain ⟨fs1, hmk, hfiles, hmono, htgt, hmade, hsave⟩ :=
      save_unfold (HDFLocalDataSet.init fp key (some la) (some sa) ver) cwd now data fs hfp
    rw [hsave, savePost_writeCall]
    have hfld := get_save_path_fields (HDFLocalDataSet.init fp key (some la) (some sa) ver) now
    rw [hfld.2.1, hfld.2.2.2.1, hsa]
    rfl

/-- Witness for C8: an unversioned handle with options `a=1`/`b=2` resolves
its load path to the raw filepath, passes `a=1` to `read_hdf` and `b=2` to
`to_hdf`. -/
theorem hdf_args_passthrough_witness :
    ((⟨false, ["data", "test.hdf"]⟩ : PyPath).segs ≠ [] ∧
      (HDFLocalDataSet.init ⟨false, ["data", "test.hdf"]⟩ "k"
          (some [("a", "1")]) (some [("b", "2")]) none).get_load_path ["home"] fsEmpty
        = Except.ok ⟨false, ["data", "test.hdf"]⟩) ∧
    ((HDFLocalDataSet.init ⟨false, ["data", "test.hdf"]⟩ "k"
        (some [("a", "1")]) (some [("b", "2")]) none).load_args = [("a", "1")] ∧
    (HDFLocalDataSet.init ⟨false, ["data", "test.hdf"]⟩ "k"
        (some [("a", "1")]) (some [("b", "2")]) none).save_args = [("b", "2")] ∧
    (HDFLocalDataSet.init ⟨false, ["data", "test.hdf"]⟩ "k" none none none).load_args = [] ∧
    (HDFLocalDataSet.init ⟨false, ["data", "test.hdf"]⟩ "k" none none none).save_args = [] ∧
    ((HDFLocalDataSet.init ⟨false, ["data", "test.hdf"]⟩ "k"
        (some [("a", "1")]) (some [("b", "2")]) none).load ["home"] fsEmpty).2 =
      some ⟨(⟨false, ["data", "test.hdf"]⟩ : PyPath).abs ["home"], "k", [("a", "1")]⟩ ∧
    ((HDFLocalDataSet.init ⟨false, ["data", "test.hdf"]⟩ "k"
        (some [("a", "1")]) (some [("b", "2")]) none).save ["home"] "T1" "payload" fsEmpty).writeCall =
      some ⟨(((HDFLocalDataSet.init ⟨false, ["data", "test.hdf"]⟩ "k"
          (some [("a", "1")]) (some [("b", "2")]) none).get_save_path "T1").1).abs ["home"],
            "k", [("b", "2")]⟩) :=
  ⟨⟨by decide, by decide⟩,
   hdf_args_passthrough ⟨false, ["data", "test.hdf"]⟩ "k" [("a", "1")] [("b", "2")] none
     ["home"] "T1" "payload" fsEmpty ⟨false, ["data", "test.hdf"]⟩ (by decide) (by decide)⟩

/-- C9.  `exists()` turns any load-path resolution error into `false`
rather than propagating it, and returns `true` exactly when the resolved
load path is an existing file whose HDF store contains the dataset's key
with a leading slash added when absent. -/
theorem hdf_exists_characterisation (ds : HDFLocalDataSet) (cwd : List String)
    (fs : FS) :
    ((∃ e, ds.get_load_path cwd fs = Except.error e) → ds.dsExists cwd fs = false) ∧
    (ds.dsExists cwd fs = true ↔
      ∃ p, ds.get_load_path cwd fs = Except.ok p ∧ fs.isFile (p.abs cwd) = true ∧
        ((fs.getStore (p.abs cwd)).map Prod.fst).contains (normKey ds.key) = true) := by
  constructor
  · rintro ⟨e, he⟩
    unfold HDFLocalDataSet.dsExists
    simp only [he]
  · unfold HDFLocalDataSet.dsExists
    rcases hg : ds.get_load_path cwd fs with e | p
    · simp only [hg]
      constructor
      · intro h
        cases h
      · rintro ⟨p, hp, _, _⟩
        cases hp
    · simp only [hg]
      by_cases hf : fs.isFile (p.abs cwd) = true
      · rw [if_pos hf]
        constructor
        · intro hc
          exact ⟨p, rfl, hf, by simpa [normKey] using hc⟩
        · rintro ⟨q, hq, hqf, hqc⟩
          injection hq with hpq
          subst hpq
          simpa [normKey] using hqc
      · rw [if_neg hf]
        constructor
        · intro h
          cases h
        · rintro ⟨q, hq, hqf, _⟩
          injection hq with hpq
          subst hpq
          exact absurd hqf hf

end KedroSpec
